import Mathlib

/-!
Shallow embedding of `synapse/handlers/device.py` (DeviceHandler): the
device-list synchronization core.  Python dicts are modelled as association
lists over string keys, stream tokens and JSON scalars as `JVal`, and the
storage / federation-transport / notifier collaborators as explicit state
and oracle arguments.  Stateful handler code becomes explicit state passing;
Python exceptions become explicit error values carried alongside the state
reached at the point the exception was raised.
-/

set_option autoImplicit false

namespace Synapse

/-- A JSON-ish value as it appears in EDU payloads and device-info blobs:
`null`, a string (also used for stream tokens after Python `str()`), or a
flat list of strings (enough for the `prev_id` field and the opaque fields
the core forwards verbatim). -/
inductive JVal where
  | null
  | str (s : String)
  | list (xs : List String)
deriving DecidableEq

/-- A Python dict with string keys, modelled as an association list. -/
abbrev JDict := List (String × JVal)

/-- Lookup in an association list (first matching key, like a Python dict
with unique keys). -/
def alookup {α β : Type} [DecidableEq α] (l : List (α × β)) (k : α) : Option β :=
  (l.find? (fun p => decide (p.1 = k))).map (·.2)

/-- Remove a key from an association list (Python `dict.pop(k, None)`). -/
def aerase {α β : Type} [DecidableEq α] (l : List (α × β)) (k : α) : List (α × β) :=
  l.filter (fun p => !(decide (p.1 = k)))

/-- Set a key in an association list (Python `d[k] = v` / `dict.update`):
any old binding is dropped and the new one added. -/
def aset {α β : Type} [DecidableEq α] (l : List (α × β)) (k : α) (v : β) : List (α × β) :=
  aerase l k ++ [(k, v)]

/-- Dict lookup: `d.get(k)` / `d[k]`. -/
def jget (d : JDict) (k : String) : Option JVal :=
  alookup d k

/-- Dict key removal: `d.pop(k, None)`. -/
def jpop (d : JDict) (k : String) : JDict :=
  aerase d k

/-- Dict key update: `d[k] = v`. -/
def jset (d : JDict) (k : String) (v : JVal) : JDict :=
  aset d k v

theorem alookup_cons {α β : Type} [DecidableEq α] (a : α × β) (l : List (α × β)) (k : α) :
    alookup (a :: l) k = if a.1 = k then some a.2 else alookup l k := by
  unfold alookup
  rw [List.find?_cons]
  by_cases h : a.1 = k <;> simp [h]

theorem aerase_cons {α β : Type} [DecidableEq α] (a : α × β) (l : List (α × β)) (k : α) :
    aerase (a :: l) k = if a.1 = k then aerase l k else a :: aerase l k := by
  unfold aerase
  rw [List.filter_cons]
  by_cases h : a.1 = k <;> simp [h]

theorem alookup_append {α β : Type} [DecidableEq α] (l₁ l₂ : List (α × β)) (k : α) :
    alookup (l₁ ++ l₂) k = match alookup l₁ k with
      | some v => some v
      | none => alookup l₂ k := by
  induction l₁ with
  | nil => simp [alookup]
  | cons a l ih =>
    rw [List.cons_append, alookup_cons, alookup_cons]
    by_cases h : a.1 = k <;> simp [h, ih]

theorem alookup_aerase_self {α β : Type} [DecidableEq α] (l : List (α × β)) (k : α) :
    alookup (aerase l k) k = none := by
  induction l with
  | nil => rfl
  | cons a l ih =>
    rw [aerase_cons]
    by_cases h : a.1 = k
    · simp only [h, if_true]; exact ih
    · rw [if_neg h, alookup_cons, if_neg h]; exact ih

theorem alookup_aerase_ne {α β : Type} [DecidableEq α] (l : List (α × β)) (k k2 : α)
    (h : k2 ≠ k) : alookup (aerase l k) k2 = alookup l k2 := by
  induction l with
  | nil => rfl
  | cons a l ih =>
    rw [aerase_cons]
    by_cases ha : a.1 = k
    · have ha2 : ¬(a.1 = k2) := by rw [ha]; exact fun hh => h hh.symm
      rw [if_pos ha, alookup_cons, if_neg ha2]
      exact ih
    · rw [if_neg ha, alookup_cons, alookup_cons]
      by_cases ha2 : a.1 = k2
      · simp [ha2]
      · rw [if_neg ha2, if_neg ha2]; exact ih

theorem alookup_aset_self {α β : Type} [DecidableEq α] (l : List (α × β)) (k : α) (v : β) :
    alookup (aset l k v) k = some v := by
  unfold aset
  rw [alookup_append, alookup_aerase_self]
  simp [alookup]

theorem alookup_aset_ne {α β : Type} [DecidableEq α] (l : List (α × β)) (k k2 : α) (v : β)
    (h : k2 ≠ k) : alookup (aset l k v) k2 = alookup l k2 := by
  unfold aset
  rw [alookup_append, alookup_aerase_ne l k k2 h]
  have hk : ¬((k, v).1 = k2) := fun hh => h hh.symm
  cases hl : alookup l k2 with
  | none => rw [alookup_cons, if_neg hk]; rfl
  | some v2 => rfl

/-- Python `str()` as applied to the values the handler compares: `str` of a
string is itself, `str(None)` is `"None"`, and `str` of a list is its bracketed
rendering (the quote character is written via its code point).  The handler at
`device.py:258` compares `str(extremity) == str(prev_ids[0])`. -/
def pyStrVal : JVal → String
  | .null => "None"
  | .str s => s
  | .list xs =>
    "[" ++ String.intercalate ", "
      (xs.map (fun s => String.singleton (Char.ofNat 39) ++ s ++ String.singleton (Char.ofNat 39)))
      ++ "]"

/-- Python `str()` of an optional value (`None` when the store has no cached
extremity for the user). -/
def pyStrOpt : Option JVal → String
  | none => "None"
  | some v => pyStrVal v

/-- Modelled from the spec: the `synapse.types.get_domain_from_id` collaborator
(not under `src/`) — the domain component of a user id, i.e. the part after the
first colon; `none` models the `IndexError` Python raises when the id has no
colon (spec section 4.4: a server may only announce changes for its own users). -/
def domainChars : List Char → Option (List Char)
  | [] => none
  | c :: rest => if c = ':' then some rest else domainChars rest

/-- Everything after the first colon of the id (`string.split(":", 1)[1]`),
computed on the character list. -/
def get_domain_from_id (s : String) : Option String :=
  (domainChars s.data).map String.mk

/-- RemoteCacheEntry (spec section 3): the last-known device list of a remote
user together with that remote server's stream extremity. -/
structure CacheEntry where
  extremity : JVal
  devices : List (JVal × JDict)
deriving DecidableEq

/-- The state the federation-facing handler reads and writes: the per-remote-user
cache (Storage collaborator) plus the log of change notifications the handler
has emitted via `notify_device_update` (ChangeNotifier collaborator, whose
internals — stream allocation, room/host fan-out — are out of scope here; a
notification is recorded as the pair of arguments passed to it). -/
structure RemoteState where
  cache : List (String × CacheEntry)
  notifications : List (String × List JVal)
deriving DecidableEq

/-- Modelled from the spec: Storage collaborator lookup of a remote user's cache
entry; `none` when the user has never been cached. -/
def lookupCache (st : RemoteState) (u : String) : Option CacheEntry :=
  alookup st.cache u

/-- Modelled from the spec: `store.get_device_list_remote_extremity(user_id)` —
the cached stream extremity for the user, `None` (here `none`) when absent. -/
def get_device_list_remote_extremity (st : RemoteState) (u : String) : Option JVal :=
  (lookupCache st u).map (·.extremity)

/-- Replace a user's cache entry wholesale. -/
def setCache (st : RemoteState) (u : String) (e : CacheEntry) : RemoteState :=
  { st with cache := aset st.cache u e }

/-- Modelled from the spec: `store.update_remote_device_list_cache(user_id,
devices, stream_id)` — the full-resync write (spec section 4.4): replace the
entry wholesale, keying each returned device blob by its `device_id` field. -/
def update_remote_device_list_cache (st : RemoteState) (u : String)
    (devices : List JDict) (stream : JVal) : RemoteState :=
  setCache st u
    ⟨stream, devices.filterMap (fun dev => (jget dev "device_id").map (fun k => (k, dev)))⟩

/-- Modelled from the spec: `store.update_remote_device_list_cache_entry(user_id,
device_id, content, stream_id)` — the incremental write (spec section 4.4):
set `devices[device_id]` to the content and advance the extremity. -/
def update_remote_device_list_cache_entry (st : RemoteState) (u : String) (d : JVal)
    (content : JDict) (stream : JVal) : RemoteState :=
  let old := ((lookupCache st u).map (·.devices)).getD []
  setCache st u ⟨stream, aset old d content⟩

/-- Record a `notify_device_update(user_id, device_ids)` call (`device.py:193`;
its stream-allocation and fan-out side effects live in collaborators). -/
def notifyRemote (st : RemoteState) (u : String) (ds : List JVal) : RemoteState :=
  { st with notifications := st.notifications ++ [(u, ds)] }

/-- The response shape of the Federation Transport collaborator's
`query_user_devices(origin, user_id)` (spec section 6). -/
structure FedResult where
  stream_id : JVal
  devices : List JDict
deriving DecidableEq

/-- Python exceptions the inbound handler can raise: `KeyError` on a missing
dict key, `TypeError` on `len()` of a non-sequence, `IndexError` from
`get_domain_from_id` on a colon-free id, and the transport failure of the
resync query. -/
inductive HandlerError where
  | keyError (k : String)
  | typeError
  | indexError
  | transportError
deriving DecidableEq

/-- Outcome of one `_incoming_device_list_update` call: the state as of the
moment the call returned or raised, which federation query (if any) was issued
(`some (origin, user_id)` records a `query_user_devices` call), and the
exception (if any) that propagated to the caller. -/
structure HandlerOut where
  state : RemoteState
  queried : Option (String × String)
  error : Option HandlerError
deriving DecidableEq

/-- The `prev_ids = edu_content.get("prev_id", [])` extraction (`device.py:242`)
combined with how `len(prev_ids)` / `prev_ids[0]` treat the value at line 255:
absent defaults to the empty list, a list is itself, a string is its sequence
of one-character strings, and `None` raises `TypeError` at `len()`. -/
def eduPrevIds (edu : JDict) : Except HandlerError (List String) :=
  match jget edu "prev_id" with
  | none => .ok []
  | some (.list xs) => .ok xs
  | some (.str s) => .ok (s.data.map (fun c => String.singleton c))
  | some .null => .error .typeError

/-- The list comprehension `[device["device_id"] for device in devices]`
(`device.py:269`): `none` models the `KeyError` raised on the first device blob
missing the key. -/
def collectDeviceIds : List JDict → Option (List JVal)
  | [] => some []
  | dev :: rest =>
    match jget dev "device_id", collectDeviceIds rest with
    | some v, some vs => some (v :: vs)
    | _, _ => none

/-- Shallow embedding of `DeviceHandler._incoming_device_list_update`
(`device.py:237-280`).  The federation transport's response to
`query_user_devices` is passed in as the oracle `qresp` (`.error ()` models a
transport failure).  Per-user linearization (spec section 5) is inherent in the
sequential state passing. -/
def incomingDeviceListUpdate (origin : String) (edu : JDict)
    (qresp : Except Unit FedResult) (st : RemoteState) : HandlerOut :=
  match jget edu "user_id" with
  | none => ⟨st, none, some (.keyError "user_id")⟩
  | some .null => ⟨st, none, some .typeError⟩
  | some (.list _) => ⟨st, none, some .typeError⟩
  | some (.str user_id) =>
    match jget edu "device_id" with
    | none => ⟨st, none, some (.keyError "device_id")⟩
    | some device_id =>
      match jget edu "stream_id" with
      | none => ⟨st, none, some (.keyError "stream_id")⟩
      | some stream_id =>
        match get_domain_from_id user_id with
        | none => ⟨st, none, some .indexError⟩
        | some dom =>
          if dom ≠ origin then
            ⟨st, none, none⟩
          else
            match eduPrevIds edu with
            | .error e => ⟨st, none, some e⟩
            | .ok prev_ids =>
              let resync : Bool :=
                match prev_ids with
                | [p] => !(pyStrOpt (get_device_list_remote_extremity st user_id) == p)
                | _ => true
              if resync then
                match qresp with
                | .error _ => ⟨st, some (origin, user_id), some .transportError⟩
                | .ok result =>
                  let st1 := update_remote_device_list_cache st user_id
                    result.devices result.stream_id
                  match collectDeviceIds result.devices with
                  | none => ⟨st1, some (origin, user_id), some (.keyError "device_id")⟩
                  | some device_ids =>
                    ⟨notifyRemote st1 user_id device_ids, some (origin, user_id), none⟩
              else
                let content := jpop (jpop (jpop (jpop edu "user_id") "device_id")
                  "stream_id") "prev_ids"
                let st1 := update_remote_device_list_cache_entry st user_id device_id
                  content stream_id
                ⟨notifyRemote st1 user_id [device_id], none, none⟩

/-- Storage-layer error (`synapse.api.errors.StoreError(code, msg)`). -/
structure StoreErr where
  code : Nat
  msg : String
deriving DecidableEq

/-- The local-registry state the DeviceRegistry operations read and write:
the device table (Storage collaborator) plus logs of the collaborator side
effects the handler triggers — access-token revocations
(`user_delete_access_tokens`), key-material deletions
(`delete_e2e_keys_by_device`) and change notifications
(`notify_device_update`), each recorded as the arguments passed. -/
structure LocalState where
  devices : List (String × String × Option String)
  tokensRevoked : List (String × String)
  keysDeleted : List (String × String)
  notifications : List (String × List String)
deriving DecidableEq

/-- Whether a device row `(user_id, device_id)` exists in the device table. -/
def deviceExists (st : LocalState) (u d : String) : Bool :=
  st.devices.any (fun x => decide (x.1 = u) && decide (x.2.1 = d))

/-- Modelled from the spec: `store.store_device(user_id, device_id,
initial_device_display_name)` — upsert-or-noop (spec section 4.1): inserting an
already-known device id is a no-op for state; the returned Bool says whether
the device was newly created. -/
def store_device (st : LocalState) (u d : String) (dn : Option String) :
    Bool × LocalState :=
  if deviceExists st u d then (false, st)
  else (true, { st with devices := st.devices ++ [(u, d, dn)] })

/-- Record a `notify_device_update(user_id, device_ids)` call from the local
registry operations (`device.py:193`). -/
def notifyLocal (st : LocalState) (u : String) (ds : List String) : LocalState :=
  { st with notifications := st.notifications ++ [(u, ds)] }

/-- The message of the `StoreError(500, ...)` raised when device-id generation
exhausts its attempts (`device.py:87`; the apostrophe is written via its code
point). -/
def couldntMsg : String :=
  "Couldn" ++ String.singleton (Char.ofNat 39) ++ "t generate a device ID."

/-- The autogeneration loop of `check_device_registered` (`device.py:74-87`):
up to 5 attempts with candidate ids supplied by the oracle `cands` (modelling
`stringutils.random_string(10).upper()`), returning on the first fresh
candidate and raising `StoreError(500, ...)` when all attempts collide. -/
def autogenAttempts (u : String) (dn : Option String) (cands : Nat → String)
    (st : LocalState) (attempts : Nat) : Except StoreErr (String × LocalState) :=
  if attempts < 5 then
    let d := cands attempts
    let r := store_device st u d dn
    if r.1 then .ok (d, notifyLocal r.2 u [d])
    else autogenAttempts u dn cands r.2 (attempts + 1)
  else .error ⟨500, couldntMsg⟩
termination_by 5 - attempts

/-- Shallow embedding of `DeviceHandler.check_device_registered`
(`device.py:45-87`): with an explicit device id, upsert-or-noop and notify only
when newly created; with no device id, run the autogeneration loop. -/
def check_device_registered (st : LocalState) (u : String) (device_id : Option String)
    (dn : Option String) (cands : Nat → String) : Except StoreErr (String × LocalState) :=
  match device_id with
  | some d =>
    let r := store_device st u d dn
    .ok (d, if r.1 then notifyLocal r.2 u [d] else r.2)
  | none => autogenAttempts u dn cands st 0

/-- Shallow embedding of `DeviceHandler.delete_device` (`device.py:135-165`):
`store.delete_device` raising `StoreError(404)` on an absent row is caught and
ignored (the collaborator signals not-found exactly when the row is absent, so
the table write is a filter either way); then the access-token revocation, key
deletion and change notification all run unconditionally. -/
def delete_device (st : LocalState) (u d : String) : LocalState :=
  let remaining := st.devices.filter (fun x => !(decide (x.1 = u) && decide (x.2.1 = d)))
  let st1 := { st with devices := remaining }
  let st2 := { st1 with tokensRevoked := st1.tokensRevoked ++ [(u, d)] }
  let st3 := { st2 with keysDeleted := st2.keysDeleted ++ [(u, d)] }
  notifyLocal st3 u [d]

/-- Errors surfaced by the client-facing read operations: `NotFoundError`, a
propagated `KeyError`, or a propagated raw `StoreError` (which `get_device`
never actually produces — that is the point of claim C8). -/
inductive ApiError where
  | notFound
  | keyError (k : String)
  | store (e : StoreErr)
deriving DecidableEq

/-- Shallow embedding of `_update_device_from_client_ips` (`device.py:292-297`):
look up the client-IP record keyed by the device's own `user_id`/`device_id`
fields (an absent record defaults to the empty dict) and set `last_seen_ts` and
`last_seen_ip` from its `last_seen` and `ip` fields (`None`, i.e. `.null`, when
absent).  A device blob missing the key fields raises `KeyError`. -/
def updateDeviceFromClientIps (device : JDict)
    (client_ips : List ((JVal × JVal) × JDict)) : Except ApiError JDict :=
  match jget device "user_id", jget device "device_id" with
  | none, _ => .error (.keyError "user_id")
  | some _, none => .error (.keyError "device_id")
  | some uv, some dv =>
    let ip := ((alookup client_ips (uv, dv)).getD [])
    .ok (jset (jset device "last_seen_ts" ((jget ip "last_seen").getD .null))
      "last_seen_ip" ((jget ip "ip").getD .null))

/-- Shallow embedding of `DeviceHandler.get_device` (`device.py:112-133`).  The
Storage collaborator's response to `store.get_device(user_id, device_id)` is the
oracle `storeResp` (the store signals not-found as a `StoreError`, and may also
fail with any other `StoreError`); the client-IP store is the oracle
`client_ips`.  Any `StoreError` whatsoever is caught and re-raised as
`NotFoundError` (`device.py:127-128`). -/
def get_device (storeResp : Except StoreErr JDict)
    (client_ips : List ((JVal × JVal) × JDict)) : Except ApiError JDict :=
  match storeResp with
  | .error _ => .error .notFound
  | .ok device => updateDeviceFromClientIps device client_ips

/-- Shallow embedding of `DeviceHandler.get_devices_by_user`
(`device.py:89-110`): the device map returned by `store.get_devices_by_user` is
the oracle `deviceMap`; each device blob is augmented from the client-IP
store. -/
def get_devices_by_user (deviceMap : List (String × JDict))
    (client_ips : List ((JVal × JVal) × JDict)) : Except ApiError (List JDict) :=
  match deviceMap with
  | [] => .ok []
  | p :: rest =>
    match updateDeviceFromClientIps p.2 client_ips with
    | .error e => .error e
    | .ok r =>
      match get_devices_by_user rest client_ips with
      | .error e => .error e
      | .ok rs => .ok (r :: rs)

/-- Shallow embedding of `DeviceHandler.get_device_list_changes`
(`device.py:221-235`): `changed` is the oracle response of
`store.get_user_whose_devices_changed(from_key)` and `roomsOf` the oracle
response of `store.get_rooms_for_user`; the result set is modelled as a
duplicate-free list built in iteration order.  Note the `user_id` parameter is
accepted but never consulted, exactly as in the source. -/
def get_device_list_changes (changed : List String) (roomsOf : String → List String)
    (user_id : String) (room_ids : List String) : List String :=
  changed.foldl (fun acc other =>
    if (roomsOf other).any (fun r => decide (r ∈ room_ids)) then
      if other ∈ acc then acc else acc ++ [other]
    else acc) []

/-- The inbound EDU of the spec section 8 scenario: `{user_id:"@b:remote",
device_id:"D9", stream_id:"7", prev_id:["6"]}` plus one opaque device-info
field. -/
def wEduInc : JDict :=
  [("user_id", .str "@b:remote"), ("device_id", .str "D9"),
   ("stream_id", .str "7"), ("prev_id", .list ["6"]), ("display_name", .str "Phone")]

/-- A remote state whose cached extremity for `@b:remote` is `"6"` (matching
the scenario EDU's single `prev_id`). -/
def wStInc : RemoteState :=
  ⟨[("@b:remote", ⟨.str "6", [(.str "D9", [("display_name", .str "Old")])]⟩)], []⟩

/-- A remote state whose cached extremity for `@b:remote` is `"5"` (mismatching
the scenario EDU's single `prev_id`, forcing the full-resync path). -/
def wStMismatch : RemoteState :=
  ⟨[("@b:remote", ⟨.str "5", [(.str "D9", [("display_name", .str "Old")])]⟩)], []⟩

/-- C1: for every inbound device-list update EDU handled by
`_incoming_device_list_update` with matching origin domain (and well-formed
envelope fields), no resync query is issued exactly when `prev_ids` has exactly
one element whose string form equals the string form of the cached stream
extremity for that user; in every other case the query issued is
`query_user_devices(origin, user_id)`. -/
theorem resync_query_iff_prev_mismatch (origin : String) (edu : JDict)
    (qresp : Except Unit FedResult) (st : RemoteState) (uid : String) (dv sv : JVal)
    (prevs : List String)
    (hu : jget edu "user_id" = some (.str uid))
    (hdom : get_domain_from_id uid = some origin)
    (hd : jget edu "device_id" = some dv)
    (hs : jget edu "stream_id" = some sv)
    (hp : eduPrevIds edu = .ok prevs) :
    ((incomingDeviceListUpdate origin edu qresp st).queried = none ↔
      ∃ x, prevs = [x] ∧ pyStrOpt (get_device_list_remote_extremity st uid) = x) ∧
    ((incomingDeviceListUpdate origin edu qresp st).queried = none ∨
      (incomingDeviceListUpdate origin edu qresp st).queried = some (origin, uid)) := by
  match prevs, hp with
  | [], hp =>
    have hq : (incomingDeviceListUpdate origin edu qresp st).queried = some (origin, uid) := by
      cases qresp with
      | error e => simp [incomingDeviceListUpdate, hu, hd, hs, hdom, hp]
      | ok r =>
        cases hm : collectDeviceIds r.devices with
        | none => simp [incomingDeviceListUpdate, hu, hd, hs, hdom, hp, hm]
        | some ids => simp [incomingDeviceListUpdate, hu, hd, hs, hdom, hp, hm]
    refine ⟨?_, Or.inr hq⟩
    rw [hq]
    simp
  | [p], hp =>
    by_cases hpe : pyStrOpt (get_device_list_remote_extremity st uid) = p
    · have hq : (incomingDeviceListUpdate origin edu qresp st).queried = none := by
        simp [incomingDeviceListUpdate, hu, hd, hs, hdom, hp, hpe]
      refine ⟨?_, Or.inl hq⟩
      rw [hq]
      simp only [true_iff]
      exact ⟨p, rfl, hpe⟩
    · have hq : (incomingDeviceListUpdate origin edu qresp st).queried = some (origin, uid) := by
        cases qresp with
        | error e => simp [incomingDeviceListUpdate, hu, hd, hs, hdom, hp, hpe]
        | ok r =>
          cases hm : collectDeviceIds r.devices with
          | none => simp [incomingDeviceListUpdate, hu, hd, hs, hdom, hp, hpe, hm]
          | some ids => simp [incomingDeviceListUpdate, hu, hd, hs, hdom, hp, hpe, hm]
      refine ⟨?_, Or.inr hq⟩
      rw [hq]
      simp only [false_iff, reduceCtorEq]
      rintro ⟨x, hx, hx2⟩
      cases hx
      exact hpe hx2
  | p :: p2 :: rest, hp =>
    have hq : (incomingDeviceListUpdate origin edu qresp st).queried = some (origin, uid) := by
      cases qresp with
      | error e => simp [incomingDeviceListUpdate, hu, hd, hs, hdom, hp]
      | ok r =>
        cases hm : collectDeviceIds r.devices with
        | none => simp [incomingDeviceListUpdate, hu, hd, hs, hdom, hp, hm]
        | some ids => simp [incomingDeviceListUpdate, hu, hd, hs, hdom, hp, hm]
    refine ⟨?_, Or.inr hq⟩
    rw [hq]
    simp

/-- Witness for C1 at the spec section 8 scenario: EDU with `prev_id = ["6"]`
and cached extremity `"6"` issues no resync query. -/
theorem resync_query_iff_prev_mismatch_witness :
    (incomingDeviceListUpdate "remote" wEduInc (Except.error ()) wStInc).queried = none :=
  ((resync_query_iff_prev_mismatch "remote" wEduInc (Except.error ()) wStInc "@b:remote"
    (JVal.str "D9") (JVal.str "7") ["6"] rfl rfl rfl rfl rfl).1).mpr ⟨"6", rfl, rfl⟩

/-- C2: on the full-resync path, a transport failure of
`query_user_devices(origin, user_id)` propagates to the caller and the whole
state — in particular the remote cache entry for the user, extremity and
devices mapping alike — is left unmodified. -/
theorem transport_failure_leaves_cache_unmodified (origin : String) (edu : JDict)
    (st : RemoteState) (uid : String) (dv sv : JVal) (prevs : List String)
    (hu : jget edu "user_id" = some (.str uid))
    (hdom : get_domain_from_id uid = some origin)
    (hd : jget edu "device_id" = some dv)
    (hs : jget edu "stream_id" = some sv)
    (hp : eduPrevIds edu = .ok prevs)
    (hre : ∀ x, prevs = [x] → pyStrOpt (get_device_list_remote_extremity st uid) ≠ x) :
    incomingDeviceListUpdate origin edu (Except.error ()) st =
      ⟨st, some (origin, uid), some .transportError⟩ := by
  cases prevs with
  | nil => simp [incomingDeviceListUpdate, hu, hd, hs, hdom, hp]
  | cons p rest =>
    cases rest with
    | nil =>
      have hne := hre p rfl
      simp [incomingDeviceListUpdate, hu, hd, hs, hdom, hp, hne]
    | cons q r => simp [incomingDeviceListUpdate, hu, hd, hs, hdom, hp]

/-- Witness for C2 at the spec section 8 scenario: EDU with `prev_id = ["6"]`
but cached extremity `"5"` takes the resync path; on transport failure the
error propagates and the state is unchanged. -/
theorem transport_failure_leaves_cache_unmodified_witness :
    incomingDeviceListUpdate "remote" wEduInc (Except.error ()) wStMismatch =
      ⟨wStMismatch, some ("remote", "@b:remote"), some .transportError⟩ :=
  transport_failure_leaves_cache_unmodified "remote" wEduInc wStMismatch "@b:remote"
    (JVal.str "D9") (JVal.str "7") ["6"] rfl rfl rfl rfl rfl
    (fun x hx => by cases hx; decide)

/-- The device-info blob cached for `(user, device)`, read back through the
Storage collaborator model. -/
def cachedDeviceInfo (st : RemoteState) (u : String) (d : JVal) : Option JDict :=
  (lookupCache st u).bind (fun e => alookup e.devices d)

/-- C4 (code bug evidence): on the incremental path the handler pops the keys
`"user_id"`, `"device_id"`, `"stream_id"` and `"prev_ids"` (`device.py:275`),
but the EDU envelope field is named `"prev_id"` (read at `device.py:242`), so
the cached device info retains the `prev_id` envelope field instead of having
all four envelope keys removed; the other fields are forwarded and the call
still succeeds. -/
theorem incremental_content_retains_prev_id :
    cachedDeviceInfo (incomingDeviceListUpdate "remote" wEduInc (Except.error ()) wStInc).state
        "@b:remote" (JVal.str "D9") =
      some [("prev_id", JVal.list ["6"]), ("display_name", JVal.str "Phone")] ∧
    (incomingDeviceListUpdate "remote" wEduInc (Except.error ()) wStInc).error = none := by
  decide

theorem extremity_setCache_self (st : RemoteState) (u : String) (e : CacheEntry) :
    get_device_list_remote_extremity (setCache st u e) u = some e.extremity := by
  unfold get_device_list_remote_extremity lookupCache setCache
  rw [alookup_aset_self]
  rfl

theorem extremity_setCache_ne (st : RemoteState) (u v : String) (e : CacheEntry)
    (h : v ≠ u) :
    get_device_list_remote_extremity (setCache st u e) v =
      get_device_list_remote_extremity st v := by
  unfold get_device_list_remote_extremity lookupCache setCache
  rw [alookup_aset_ne _ _ _ _ h]

theorem extremity_notifyRemote (st : RemoteState) (u v : String) (ds : List JVal) :
    get_device_list_remote_extremity (notifyRemote st u ds) v =
      get_device_list_remote_extremity st v := rfl

/-- One inbound federation notification: the arguments the transport dispatcher
hands to `_incoming_device_list_update`, together with the transport's response
to the resync query should one be issued. -/
structure Step where
  origin : String
  edu : JDict
  qresp : Except Unit FedResult

/-- Run a sequence of inbound update handlings, threading the state (the
per-user linearizer guarantees exactly this serial order, spec section 5). -/
def runSteps : List Step → RemoteState → RemoteState
  | [], st => st
  | s :: rest, st =>
    runSteps rest (incomingDeviceListUpdate s.origin s.edu s.qresp st).state

/-- Whether every handling in the sequence completed successfully (no
exception propagated). -/
def runOk : List Step → RemoteState → Bool
  | [], _ => true
  | s :: rest, st =>
    let out := incomingDeviceListUpdate s.origin s.edu s.qresp st
    out.error.isNone && runOk rest out.state

/-- Spec-side account (spec sections 3 and 4.4) of the stream position a
successfully handled inbound notification applies for user `u`: the EDU's
`stream_id` on an incremental apply, the queried `stream_id` on a full resync,
and nothing when the notification is for another user, is discarded by the
origin-domain validation, or fails. -/
def appliedPosition (u : String) (s : Step) (st : RemoteState) : Option JVal :=
  match jget s.edu "user_id" with
  | some (.str uid) =>
    if uid = u ∧ get_domain_from_id uid = some s.origin then
      match eduPrevIds s.edu with
      | .ok prevs =>
        match prevs with
        | [p] =>
          if pyStrOpt (get_device_list_remote_extremity st uid) = p then
            jget s.edu "stream_id"
          else
            match s.qresp with
            | .ok r => some r.stream_id
            | .error _ => none
        | _ =>
          match s.qresp with
          | .ok r => some r.stream_id
          | .error _ => none
      | .error _ => none
    else none
  | _ => none

/-- The extremity required by the spec invariant after a run: the position of
the last successfully-applied update or full resync for `u`, or the initial
extremity when the run applies none. -/
def trackExtremity (u : String) : List Step → RemoteState → Option JVal → Option JVal
  | [], _, e => e
  | s :: rest, st, e =>
    trackExtremity u rest (incomingDeviceListUpdate s.origin s.edu s.qresp st).state
      (match appliedPosition u s st with
        | some p => some p
        | none => e)

theorem handler_extremity_step (origin : String) (edu : JDict) (q : Except Unit FedResult)
    (st : RemoteState) (u : String)
    (h : (incomingDeviceListUpdate origin edu q st).error = none) :
    get_device_list_remote_extremity (incomingDeviceListUpdate origin edu q st).state u =
      match appliedPosition u ⟨origin, edu, q⟩ st with
      | some p => some p
      | none => get_device_list_remote_extremity st u := by
  cases hju : jget edu "user_id" with
  | none => simp [incomingDeviceListUpdate, hju] at h
  | some v =>
    cases v with
    | null => simp [incomingDeviceListUpdate, hju] at h
    | list xs => simp [incomingDeviceListUpdate, hju] at h
    | str uid =>
      cases hjd : jget edu "device_id" with
      | none => simp [incomingDeviceListUpdate, hju, hjd] at h
      | some dv =>
        cases hjs : jget edu "stream_id" with
        | none => simp [incomingDeviceListUpdate, hju, hjd, hjs] at h
        | some sv =>
          cases hdm : get_domain_from_id uid with
          | none => simp [incomingDeviceListUpdate, hju, hjd, hjs, hdm] at h
          | some dom =>
            by_cases hdo : dom = origin
            · subst hdo
              cases hpv : eduPrevIds edu with
              | error e => simp [incomingDeviceListUpdate, hju, hjd, hjs, hdm, hpv] at h
              | ok prevs =>
                by_cases huu : uid = u
                · subst huu
                  match prevs with
                  | [p] =>
                    by_cases hpe : pyStrOpt (get_device_list_remote_extremity st uid) = p
                    · simp [incomingDeviceListUpdate, appliedPosition, hju, hjd, hjs,
                        hdm, hpv, hpe, update_remote_device_list_cache_entry,
                        extremity_notifyRemote, extremity_setCache_self]
                    · cases q with
                      | error e =>
                        simp [incomingDeviceListUpdate, hju, hjd, hjs, hdm, hpv, hpe] at h
                      | ok r =>
                        cases hm : collectDeviceIds r.devices with
                        | none =>
                          simp [incomingDeviceListUpdate, hju, hjd, hjs, hdm, hpv,
                            hpe, hm] at h
                        | some ids =>
                          simp [incomingDeviceListUpdate, appliedPosition, hju, hjd,
                            hjs, hdm, hpv, hpe, hm, update_remote_device_list_cache,
                            extremity_notifyRemote, extremity_setCache_self]
                  | [] =>
                    cases q with
                    | error e =>
                      simp [incomingDeviceListUpdate, hju, hjd, hjs, hdm, hpv] at h
                    | ok r =>
                      cases hm : collectDeviceIds r.devices with
                      | none =>
                        simp [incomingDeviceListUpdate, hju, hjd, hjs, hdm, hpv, hm] at h
                      | some ids =>
                        simp [incomingDeviceListUpdate, appliedPosition, hju, hjd, hjs,
                          hdm, hpv, hm, update_remote_device_list_cache,
                          extremity_notifyRemote, extremity_setCache_self]
                  | p :: p2 :: rest =>
                    cases q with
                    | error e =>
                      simp [incomingDeviceListUpdate, hju, hjd, hjs, hdm, hpv] at h
                    | ok r =>
                      cases hm : collectDeviceIds r.devices with
                      | none =>
                        simp [incomingDeviceListUpdate, hju, hjd, hjs, hdm, hpv, hm] at h
                      | some ids =>
                        simp [incomingDeviceListUpdate, appliedPosition, hju, hjd, hjs,
                          hdm, hpv, hm, update_remote_device_list_cache,
                          extremity_notifyRemote, extremity_setCache_self]
                · have hne : u ≠ uid := fun hh => huu hh.symm
                  match prevs with
                  | [p] =>
                    by_cases hpe : pyStrOpt (get_device_list_remote_extremity st uid) = p
                    · simp [incomingDeviceListUpdate, appliedPosition, hju, hjd, hjs,
                        hdm, hpv, hpe, huu, update_remote_device_list_cache_entry,
                        extremity_notifyRemote, extremity_setCache_ne _ _ _ _ hne]
                    · cases q with
                      | error e =>
                        simp [incomingDeviceListUpdate, hju, hjd, hjs, hdm, hpv, hpe] at h
                      | ok r =>
                        cases hm : collectDeviceIds r.devices with
                        | none =>
                          simp [incomingDeviceListUpdate, hju, hjd, hjs, hdm, hpv,
                            hpe, hm] at h
                        | some ids =>
                          simp [incomingDeviceListUpdate, appliedPosition, hju, hjd,
                            hjs, hdm, hpv, hpe, hm, huu, update_remote_device_list_cache,
                            extremity_notifyRemote, extremity_setCache_ne _ _ _ _ hne]
                  | [] =>
                    cases q with
                    | error e =>
                      simp [incomingDeviceListUpdate, hju, hjd, hjs, hdm, hpv] at h
                    | ok r =>
                      cases hm : collectDeviceIds r.devices with
                      | none =>
                        simp [incomingDeviceListUpdate, hju, hjd, hjs, hdm, hpv, hm] at h
                      | some ids =>
                        simp [incomingDeviceListUpdate, appliedPosition, hju, hjd, hjs,
                          hdm, hpv, hm, huu, update_remote_device_list_cache,
                          extremity_notifyRemote, extremity_setCache_ne _ _ _ _ hne]
                  | p :: p2 :: rest =>
                    cases q with
                    | error e =>
                      simp [incomingDeviceListUpdate, hju, hjd, hjs, hdm, hpv] at h
                    | ok r =>
                      cases hm : collectDeviceIds r.devices with
                      | none =>
                        simp [incomingDeviceListUpdate, hju, hjd, hjs, hdm, hpv, hm] at h
                      | some ids =>
                        simp [incomingDeviceListUpdate, appliedPosition, hju, hjd, hjs,
                          hdm, hpv, hm, huu, update_remote_device_list_cache,
                          extremity_notifyRemote, extremity_setCache_ne _ _ _ _ hne]
            · simp [incomingDeviceListUpdate, appliedPosition, hju, hjd, hjs, hdm, hdo]

/-- C5: after any successfully completed sequence of inbound update handlings,
the stored extremity for each remote user equals the position of the last
successfully-applied incremental update or full resync for that user (the
initial extremity when none applied) — in particular it never silently falls
back behind the last applied position. -/
theorem extremity_reflects_last_applied (steps : List Step) (st : RemoteState)
    (u : String) (h : runOk steps st = true) :
    get_device_list_remote_extremity (runSteps steps st) u =
      trackExtremity u steps st (get_device_list_remote_extremity st u) := by
  induction steps generalizing st with
  | nil => rfl
  | cons s rest ih =>
    have hsplit : ((incomingDeviceListUpdate s.origin s.edu s.qresp st).error.isNone &&
        runOk rest (incomingDeviceListUpdate s.origin s.edu s.qresp st).state) = true := h
    have h1 : (incomingDeviceListUpdate s.origin s.edu s.qresp st).error = none := by
      have := (Bool.and_eq_true _ _).mp hsplit
      exact Option.isNone_iff_eq_none.mp this.1
    have h2 : runOk rest (incomingDeviceListUpdate s.origin s.edu s.qresp st).state = true :=
      ((Bool.and_eq_true _ _).mp hsplit).2
    show get_device_list_remote_extremity
        (runSteps rest (incomingDeviceListUpdate s.origin s.edu s.qresp st).state) u = _
    rw [ih _ h2, handler_extremity_step s.origin s.edu s.qresp st u h1]
    rfl

/-- A second EDU for the same user whose single `prev_id` (`"8"`) mismatches
the then-current extremity (`"7"`), forcing a full resync. -/
def wEduMismatch : JDict :=
  [("user_id", .str "@b:remote"), ("device_id", .str "D0"),
   ("stream_id", .str "8"), ("prev_id", .list ["8"])]

/-- A two-step run: an incremental apply (extremity `"6"` to `"7"`) followed by
a full resync whose queried stream position is `"9"`. -/
def wSteps : List Step :=
  [⟨"remote", wEduInc, Except.error ()⟩,
   ⟨"remote", wEduMismatch, Except.ok ⟨.str "9", [[("device_id", .str "D9")]]⟩⟩]

/-- Witness for C5 on the concrete two-step run. -/
theorem extremity_reflects_last_applied_witness :
    get_device_list_remote_extremity (runSteps wSteps wStInc) "@b:remote" =
      trackExtremity "@b:remote" wSteps wStInc
        (get_device_list_remote_extremity wStInc "@b:remote") :=
  extremity_reflects_last_applied wSteps wStInc "@b:remote" (by decide)

/-- C6: registering an explicit `(user_id, device_id)` twice is idempotent —
the first call returns some state `st1`, and the second call (any display
name) is a no-op returning the same device id and exactly `st1`, so in
particular no second change notification is emitted. -/
theorem register_explicit_idempotent (st : LocalState) (u d : String)
    (dn dn2 : Option String) (c c2f : Nat → String) :
    ∃ st1, check_device_registered st u (some d) dn c = .ok (d, st1) ∧
      check_device_registered st1 u (some d) dn2 c2f = .ok (d, st1) := by
  cases hx : deviceExists st u d with
  | true =>
    refine ⟨st, ?_, ?_⟩ <;> simp [check_device_registered, store_device, hx]
  | false =>
    refine ⟨notifyLocal { st with devices := st.devices ++ [(u, d, dn)] } u [d], ?_, ?_⟩
    · simp [check_device_registered, store_device, hx]
    · have hx2 : deviceExists
          (notifyLocal { st with devices := st.devices ++ [(u, d, dn)] } u [d]) u d = true := by
        simp [deviceExists, notifyLocal, List.any_append]
      simp [check_device_registered, store_device, hx2]

theorem autogen_all_collide (u : String) (dn : Option String) (cands : Nat → String) :
    ∀ (n k : Nat) (st : LocalState), 5 - k ≤ n →
      (∀ i, k ≤ i → i < 5 → deviceExists st u (cands i) = true) →
      autogenAttempts u dn cands st k = .error ⟨500, couldntMsg⟩ := by
  intro n
  induction n with
  | zero =>
    intro k st hk _
    unfold autogenAttempts
    rw [if_neg (by omega)]
  | succ n ih =>
    intro k st hk hall
    unfold autogenAttempts
    by_cases hlt : k < 5
    · rw [if_pos hlt]
      have hex := hall k le_rfl hlt
      have hsd : store_device st u (cands k) dn = (false, st) := by
        simp [store_device, hex]
      simp only [hsd]
      exact ih (k + 1) st (by omega) (fun i h1 h2 => hall i (by omega) h2)
    · rw [if_neg hlt]

theorem autogen_first_fresh (u : String) (dn : Option String) (cands : Nat → String) :
    ∀ (n k : Nat) (st : LocalState), 5 - k ≤ n → ∀ j, k ≤ j → j < 5 →
      (∀ i, k ≤ i → i < j → deviceExists st u (cands i) = true) →
      deviceExists st u (cands j) = false →
      autogenAttempts u dn cands st k =
        .ok (cands j,
          notifyLocal { st with devices := st.devices ++ [(u, cands j, dn)] } u [cands j]) := by
  intro n
  induction n with
  | zero => intro k st hk j hkj hj5 _ _; omega
  | succ n ih =>
    intro k st hk j hkj hj5 hcoll hfresh
    unfold autogenAttempts
    rw [if_pos (show k < 5 by omega)]
    by_cases hjk : j = k
    · subst hjk
      have hsd : store_device st u (cands j) dn =
          (true, { st with devices := st.devices ++ [(u, cands j, dn)] }) := by
        simp [store_device, hfresh]
      simp only [hsd]
      simp
    · have hkj2 : k < j := lt_of_le_of_ne hkj (fun hh => hjk hh.symm)
      have hex := hcoll k le_rfl hkj2
      have hsd : store_device st u (cands k) dn = (false, st) := by
        simp [store_device, hex]
      simp only [hsd]
      exact ih (k + 1) st (by omega) j (by omega) hj5
        (fun i h1 h2 => hcoll i (by omega) h2) hfresh

/-- C7: with no device id supplied, `check_device_registered` consults the
candidate oracle in order; if the first five candidates all collide it fails
with `StoreError(500, ...)` — exactly five attempts, since the conclusion never
consults candidate five, and a fresh candidate at any index below five instead
succeeds with that candidate — which is distinct from every existing device of
the user — and emits exactly one change notification for that single device. -/
theorem autogen_five_attempts (st : LocalState) (u : String) (dn : Option String)
    (cands : Nat → String) :
    ((∀ i, i < 5 → deviceExists st u (cands i) = true) →
      check_device_registered st u none dn cands = .error ⟨500, couldntMsg⟩) ∧
    (∀ j, j < 5 → (∀ i, i < j → deviceExists st u (cands i) = true) →
      deviceExists st u (cands j) = false →
      check_device_registered st u none dn cands =
        .ok (cands j,
          notifyLocal { st with devices := st.devices ++ [(u, cands j, dn)] } u [cands j])) := by
  constructor
  · intro hall
    exact autogen_all_collide u dn cands 5 0 st (by omega) (fun i _ h2 => hall i h2)
  · intro j hj hcoll hfresh
    exact autogen_first_fresh u dn cands 5 0 st (by omega) j (Nat.zero_le j) hj
      (fun i _ h2 => hcoll i h2) hfresh

/-- A one-device registry used by the witnesses. -/
def wSt7 : LocalState := ⟨[("u", "A", none)], [], [], []⟩

/-- A candidate oracle whose first candidate collides with the existing device
and whose second is fresh. -/
def wCands : Nat → String := fun i => if i = 0 then "A" else "B"

/-- Witness for C7: with one colliding candidate followed by a fresh one, the
call succeeds with the fresh id and one notification. -/
theorem autogen_five_attempts_witness :
    check_device_registered wSt7 "u" none none wCands =
      .ok ("B", notifyLocal { wSt7 with devices := wSt7.devices ++ [("u", "B", none)] } "u" ["B"]) :=
  (autogen_five_attempts wSt7 "u" none wCands).2 1 (by decide)
    (fun i hi => by interval_cases i; decide) (by decide)

theorem any_filter_not {α : Type} (l : List α) (c : α → Bool) :
    (l.filter (fun x => !(c x))).any c = false := by
  induction l with
  | nil => rfl
  | cons a l ih =>
    rw [List.filter_cons]
    cases hc : c a <;> simp [hc, ih]

theorem any_filter_of_imp {α : Type} (l : List α) (p q : α → Bool)
    (h : ∀ x, q x = true → p x = true) : (l.filter p).any q = l.any q := by
  induction l with
  | nil => rfl
  | cons a l ih =>
    rw [List.filter_cons]
    cases hp : p a with
    | false =>
      have hq : q a = false := by
        cases hqa : q a with
        | false => rfl
        | true => rw [h a hqa] at hp; cases hp
      simp [hq, ih]
    | true => simp [List.any_cons, ih]

/-- The empty local registry. -/
def emptyLocal : LocalState := ⟨[], [], [], []⟩

/-- C3 counterexample: deleting a device that does not exist still emits a
change notification containing that device id (the 404 from the store is
caught, after which token revocation, key deletion and the notification all run
unconditionally, `device.py:147-165`) — contradicting the claim that no
notification is emitted in that case. -/
theorem delete_absent_still_notifies :
    deviceExists emptyLocal "@a:home" "D1" = false ∧
    (delete_device emptyLocal "@a:home" "D1").notifications = [("@a:home", ["D1"])] ∧
    (delete_device emptyLocal "@a:home" "D1").tokensRevoked = [("@a:home", "D1")] := by
  decide

/-- C3 as amended: `delete_device` always returns successfully; whether or not
the device existed it revokes the device-scoped tokens, deletes the key
material and emits exactly one change notification containing that device id,
and afterwards the device row is gone while all other device rows are
untouched. -/
theorem delete_device_effects (st : LocalState) (u d : String) :
    (delete_device st u d).notifications = st.notifications ++ [(u, [d])] ∧
    (delete_device st u d).tokensRevoked = st.tokensRevoked ++ [(u, d)] ∧
    (delete_device st u d).keysDeleted = st.keysDeleted ++ [(u, d)] ∧
    deviceExists (delete_device st u d) u d = false ∧
    (∀ u2 d2, ¬(u2 = u ∧ d2 = d) →
      deviceExists (delete_device st u d) u2 d2 = deviceExists st u2 d2) := by
  refine ⟨rfl, rfl, rfl, ?_, ?_⟩
  · exact any_filter_not st.devices _
  · intro u2 d2 hne
    show (st.devices.filter _).any _ = _
    apply any_filter_of_imp
    intro x hx
    have hx1 : x.1 = u2 ∧ x.2.1 = d2 := by
      constructor <;> [skip; skip] <;> {
        have := hx
        simp [Bool.and_eq_true, decide_eq_true_eq] at this
        first
        | exact this.1
        | exact this.2
      }
    rw [Bool.not_eq_true']
    by_cases h1 : x.1 = u
    · by_cases h2 : x.2.1 = d
      · exact absurd ⟨hx1.1.symm.trans h1, hx1.2.symm.trans h2⟩ hne
      · simp [h1, h2]
    · simp [h1]

/-- Witness for C3 (amended): frame part of the conjunction at a concrete
other device. -/
theorem delete_device_effects_witness :
    deviceExists (delete_device wSt7 "u" "A") "u" "B" = deviceExists wSt7 "u" "B" :=
  (delete_device_effects wSt7 "u" "A").2.2.2.2 "u" "B" (by decide)

theorem jget_jset_self (d : JDict) (k : String) (v : JVal) :
    jget (jset d k v) k = some v :=
  alookup_aset_self d k v

theorem jget_jset_ne (d : JDict) (k k2 : String) (v : JVal) (h : k2 ≠ k) :
    jget (jset d k v) k2 = jget d k2 :=
  alookup_aset_ne d k k2 v h

/-- What C10 asserts of a returned device record `r` relative to the stored
blob `dev`: `r` is `dev` with the two fields `last_seen_ts` and `last_seen_ip`
set from the client-IP record for `(dev.user_id, dev.device_id)` (null when the
record or field is absent) and every other field unchanged. -/
def augmentedWithIps (ips : List ((JVal × JVal) × JDict)) (dev r : JDict) : Prop :=
  ∃ uv dv, jget dev "user_id" = some uv ∧ jget dev "device_id" = some dv ∧
    jget r "last_seen_ts" =
      some ((jget ((alookup ips (uv, dv)).getD []) "last_seen").getD .null) ∧
    jget r "last_seen_ip" =
      some ((jget ((alookup ips (uv, dv)).getD []) "ip").getD .null) ∧
    ∀ k, k ≠ "last_seen_ts" → k ≠ "last_seen_ip" → jget r k = jget dev k

theorem updateDeviceFromClientIps_augments (dev : JDict)
    (ips : List ((JVal × JVal) × JDict)) (uv dv : JVal)
    (hu : jget dev "user_id" = some uv) (hd : jget dev "device_id" = some dv) :
    ∃ r, updateDeviceFromClientIps dev ips = .ok r ∧ augmentedWithIps ips dev r := by
  refine ⟨jset (jset dev "last_seen_ts"
      ((jget ((alookup ips (uv, dv)).getD []) "last_seen").getD .null))
      "last_seen_ip" ((jget ((alookup ips (uv, dv)).getD []) "ip").getD .null), ?_, ?_⟩
  · simp [updateDeviceFromClientIps, hu, hd]
  · refine ⟨uv, dv, hu, hd, ?_, ?_, ?_⟩
    · rw [jget_jset_ne _ _ _ _ (by decide), jget_jset_self]
    · rw [jget_jset_self]
    · intro k hts hip
      rw [jget_jset_ne _ _ _ _ hip, jget_jset_ne _ _ _ _ hts]

/-- C10: every device record returned by `get_device` or `get_devices_by_user`
is the stored device blob augmented with `last_seen_ts` and `last_seen_ip`
taken from the client-IP store for that `(user_id, device_id)` — null when no
client-IP record (or field) exists — with all other stored fields returned
unchanged. -/
theorem read_paths_augment_with_client_ips :
    (∀ (dev : JDict) (ips : List ((JVal × JVal) × JDict)) (uv dv : JVal),
      jget dev "user_id" = some uv → jget dev "device_id" = some dv →
      ∃ r, get_device (.ok dev) ips = .ok r ∧ augmentedWithIps ips dev r) ∧
    (∀ (deviceMap : List (String × JDict)) (ips : List ((JVal × JVal) × JDict)),
      (∀ p, p ∈ deviceMap →
        ∃ uv dv, jget p.2 "user_id" = some uv ∧ jget p.2 "device_id" = some dv) →
      ∃ rs, get_devices_by_user deviceMap ips = .ok rs ∧
        List.Forall₂ (augmentedWithIps ips) (deviceMap.map (fun p => p.2)) rs) := by
  constructor
  · intro dev ips uv dv hu hd
    exact updateDeviceFromClientIps_augments dev ips uv dv hu hd
  · intro deviceMap ips
    induction deviceMap with
    | nil => intro _; exact ⟨[], rfl, List.Forall₂.nil⟩
    | cons p rest ih =>
      intro hall
      obtain ⟨uv, dv, hu, hd⟩ := hall p (List.mem_cons_self p rest)
      obtain ⟨r, hr, haug⟩ := updateDeviceFromClientIps_augments p.2 ips uv dv hu hd
      obtain ⟨rs, hrs, hailist⟩ := ih (fun q hq => hall q (List.mem_cons_of_mem p hq))
      refine ⟨r :: rs, ?_, ?_⟩
      · simp only [get_devices_by_user, hr, hrs]
      · exact List.Forall₂.cons haug hailist

/-- A concrete stored device blob and client-IP store for the C10 witness. -/
def wDev : JDict :=
  [("user_id", .str "@a:home"), ("device_id", .str "D1"), ("display_name", .str "Phone")]

/-- Client-IP store holding a record for `wDev`. -/
def wIps : List ((JVal × JVal) × JDict) :=
  [((.str "@a:home", .str "D1"), [("last_seen", .str "12345"), ("ip", .str "10.0.0.1")])]

/-- Witness for C10 at a concrete device and client-IP store. -/
theorem read_paths_augment_with_client_ips_witness :
    ∃ r, get_device (.ok wDev) wIps = .ok r ∧ augmentedWithIps wIps wDev r :=
  (read_paths_augment_with_client_ips).1 wDev wIps (JVal.str "@a:home") (JVal.str "D1")
    rfl rfl

/-- C8 counterexample: a storage failure that does not signal not-found (here
`StoreError(500, ...)`) is not propagated unchanged by `get_device` — the
blanket `except StoreError` at `device.py:127` converts it to `NotFoundError`. -/
theorem get_device_swallows_store_error :
    get_device (Except.error ⟨500, "database unavailable"⟩) [] = .error .notFound ∧
    (Except.error (ApiError.store ⟨500, "database unavailable"⟩) : Except ApiError JDict) ≠
      Except.error ApiError.notFound := by
  refine ⟨rfl, fun h => ?_⟩
  injection h with h2
  cases h2

/-- C8 as amended: `get_device` fails with `NotFound` exactly when the
underlying store lookup fails with any `StoreError` — not-found or otherwise —
and on a successful lookup it proceeds to the client-IP augmentation. -/
theorem get_device_not_found_iff_store_error (storeResp : Except StoreErr JDict)
    (client_ips : List ((JVal × JVal) × JDict)) :
    (get_device storeResp client_ips = .error .notFound ↔ ∃ e, storeResp = .error e) ∧
    (∀ dev, storeResp = .ok dev →
      get_device storeResp client_ips = updateDeviceFromClientIps dev client_ips) := by
  constructor
  · constructor
    · intro hn
      cases storeResp with
      | error e => exact ⟨e, rfl⟩
      | ok dev =>
        exfalso
        cases h1 : jget dev "user_id" with
        | none => simp [get_device, updateDeviceFromClientIps, h1] at hn
        | some uv =>
          cases h2 : jget dev "device_id" with
          | none => simp [get_device, updateDeviceFromClientIps, h1, h2] at hn
          | some dv => simp [get_device, updateDeviceFromClientIps, h1, h2] at hn
    · rintro ⟨e, rfl⟩
      rfl
  · intro dev h
    subst h
    rfl

/-- Witness for C8 (amended): the success conjunct applied at the concrete
device and client-IP store. -/
theorem get_device_not_found_iff_store_error_witness :
    get_device (Except.ok wDev) wIps = updateDeviceFromClientIps wDev wIps :=
  (get_device_not_found_iff_store_error (Except.ok wDev) wIps).2 wDev rfl

theorem gdlc_fold_spec (roomsOf : String → List String) (room_ids : List String) :
    ∀ (l acc : List String), acc.Nodup →
      (l.foldl (fun acc other =>
          if (roomsOf other).any (fun r => decide (r ∈ room_ids)) then
            if other ∈ acc then acc else acc ++ [other]
          else acc) acc).Nodup ∧
      (∀ v, v ∈ l.foldl (fun acc other =>
          if (roomsOf other).any (fun r => decide (r ∈ room_ids)) then
            if other ∈ acc then acc else acc ++ [other]
          else acc) acc ↔
        v ∈ acc ∨ (v ∈ l ∧ (roomsOf v).any (fun r => decide (r ∈ room_ids)) = true)) := by
  intro l
  induction l with
  | nil =>
    intro acc hacc
    exact ⟨hacc, fun v => by simp⟩
  | cons a l ih =>
    intro acc hacc
    rw [List.foldl_cons]
    by_cases hcond : (roomsOf a).any (fun r => decide (r ∈ room_ids)) = true
    · by_cases hmem : a ∈ acc
      · rw [if_pos hcond, if_pos hmem]
        obtain ⟨hn, hiff⟩ := ih acc hacc
        refine ⟨hn, fun v => ?_⟩
        rw [hiff v]
        constructor
        · rintro (h | ⟨h1, h2⟩)
          · exact Or.inl h
          · exact Or.inr ⟨List.mem_cons_of_mem a h1, h2⟩
        · rintro (h | ⟨h1, h2⟩)
          · exact Or.inl h
          · rcases List.mem_cons.mp h1 with rfl | h1
            · exact Or.inl hmem
            · exact Or.inr ⟨h1, h2⟩
      · rw [if_pos hcond, if_neg hmem]
        have hacc2 : (acc ++ [a]).Nodup := by
          rw [List.nodup_append]
          refine ⟨hacc, List.nodup_singleton a, ?_⟩
          intro x hx hxa
          rw [List.mem_singleton] at hxa
          subst hxa
          exact hmem hx
        obtain ⟨hn, hiff⟩ := ih (acc ++ [a]) hacc2
        refine ⟨hn, fun v => ?_⟩
        rw [hiff v]
        rw [List.mem_append, List.mem_singleton, List.mem_cons]
        constructor
        · rintro ((h | rfl) | ⟨h1, h2⟩)
          · exact Or.inl h
          · exact Or.inr ⟨Or.inl rfl, hcond⟩
          · exact Or.inr ⟨Or.inr h1, h2⟩
        · rintro (h | ⟨rfl | h1, h2⟩)
          · exact Or.inl (Or.inl h)
          · exact Or.inl (Or.inr rfl)
          · exact Or.inr ⟨h1, h2⟩
    · rw [if_neg hcond]
      obtain ⟨hn, hiff⟩ := ih acc hacc
      refine ⟨hn, fun v => ?_⟩
      rw [hiff v]
      constructor
      · rintro (h | ⟨h1, h2⟩)
        · exact Or.inl h
        · exact Or.inr ⟨List.mem_cons_of_mem a h1, h2⟩
      · rintro (h | ⟨h1, h2⟩)
        · exact Or.inl h
        · rcases List.mem_cons.mp h1 with rfl | h1
          · exact absurd h2 hcond
          · exact Or.inr ⟨h1, h2⟩

/-- The room-membership oracle used by the C9 counterexample and witness:
every user is in room `R`. -/
def wRoomsOf : String → List String := fun _ => ["R"]

/-- C9 counterexample: when the calling user's own device list changed,
`get_device_list_changes` returns a set containing the calling user — the
`user_id` parameter is never consulted (`device.py:221-235`), so the result is
not a set of other users as claimed. -/
theorem changes_include_calling_user :
    "@a:hs" ∈ get_device_list_changes ["@a:hs"] wRoomsOf "@a:hs" ["R"] := by
  decide

/-- C9 as amended: the result is exactly the set of users — the calling user
not excluded — whose device lists changed after `from_key` (the `changed`
oracle) and who share at least one room with the given `room_ids`; it is
duplicate-free (so a user sharing several rooms appears at most once) and empty
when the changed-set is empty. -/
theorem device_list_changes_characterization (changed : List String)
    (roomsOf : String → List String) (user_id : String) (room_ids : List String) :
    (∀ v, v ∈ get_device_list_changes changed roomsOf user_id room_ids ↔
      v ∈ changed ∧ ∃ r, r ∈ roomsOf v ∧ r ∈ room_ids) ∧
    (get_device_list_changes changed roomsOf user_id room_ids).Nodup ∧
    (changed = [] → get_device_list_changes changed roomsOf user_id room_ids = []) := by
  obtain ⟨hn, hiff⟩ := gdlc_fold_spec roomsOf room_ids changed [] List.nodup_nil
  refine ⟨fun v => ?_, hn, fun h => by subst h; rfl⟩
  unfold get_device_list_changes
  rw [hiff v]
  simp [List.any_eq_true]

/-- Witness for C9 (amended): the empty changed-set conjunct at concrete
arguments. -/
theorem device_list_changes_characterization_witness :
    get_device_list_changes [] wRoomsOf "@a:hs" ["R"] = [] :=
  (device_list_changes_characterization [] wRoomsOf "@a:hs" ["R"]).2.2 rfl
